import Mathlib

/-!
Verification of the v4l2 HDR shim (src/src/v4l2-hdr-shim.c) against its
specification. The C source is shallowly embedded: the payload struct
v4l2_format, the one-time configuration read from the environment, the
descriptor-to-path matcher (readlink into a 256-byte buffer), and the
intercepted ioctl entry point. External effects (getenv, readlink, the real
ioctl resolved by dlsym) are passed in as explicit function parameters.
-/

namespace V4l2HdrShim

/-! ### Constants from linux/videodev2.h, as used by the shim -/

/-- Request code VIDIOC_S_FMT on 64-bit Linux. -/
def VIDIOC_S_FMT : Nat := 0xc0d05605

/-- V4L2_BUF_TYPE_VIDEO_OUTPUT = 2. -/
def V4L2_BUF_TYPE_VIDEO_OUTPUT : Nat := 2

/-- V4L2_COLORSPACE_BT2020 = 9. -/
def V4L2_COLORSPACE_BT2020 : Nat := 9

/-- V4L2_XFER_FUNC_SMPTE2084 = 6 (perceptual quantizer). -/
def V4L2_XFER_FUNC_SMPTE2084 : Nat := 6

/-- V4L2_YCBCR_ENC_BT2020 = 10. -/
def V4L2_YCBCR_ENC_BT2020 : Nat := 10

/-- V4L2_QUANTIZATION_LIM_RANGE = 2. -/
def V4L2_QUANTIZATION_LIM_RANGE : Nat := 2

/-! ### Data model: the payload the shim inspects -/

/-- struct v4l2_pix_format: the fmt.pix member of v4l2_format. All fields kept
so that "byte-for-byte unmodified" is meaningful. -/
structure v4l2_pix_format where
  width : Nat
  height : Nat
  pixelformat : Nat
  field : Nat
  bytesperline : Nat
  sizeimage : Nat
  colorspace : Nat
  priv : Nat
  flags : Nat
  ycbcr_enc : Nat
  quantization : Nat
  xfer_func : Nat
deriving DecidableEq, Repr

/-- struct v4l2_format: type discriminant plus the pix union member the shim
touches. -/
structure v4l2_format where
  type : Nat
  pix : v4l2_pix_format
deriving DecidableEq, Repr

/-! ### Configuration (shim_init, lines 47-66 of v4l2-hdr-shim.c) -/

/-- The configuration snapshot produced by shim_init: shim_disabled and
target_dev. target_dev = none models the NULL pointer (never set because
init returned early on the disabled path). -/
structure ShimConfig where
  shim_disabled : Bool
  target_dev : Option String
deriving DecidableEq, Repr

/-- The C test for the disable switch: env_dis and env_dis[0] == the digit one.
A missing variable or an empty string is not affirmative. -/
def disable_affirmative : Option String → Bool
  | some s =>
    match s.data with
    | c :: _ => c == '1'
    | [] => false
  | none => false

/-- shim_init, configuration part (lines 58-65): read V4L2_HDR_SHIM_DISABLE;
if affirmative, mark disabled and return before touching target_dev.
Otherwise read V4L2_HDR_SHIM_DEVICE; an unset or empty value becomes the
empty string (patch any output device). -/
def shim_init_config (env : String → Option String) : ShimConfig :=
  if disable_affirmative (env "V4L2_HDR_SHIM_DISABLE") then
    { shim_disabled := true, target_dev := none }
  else
    { shim_disabled := false,
      target_dev := some (match env "V4L2_HDR_SHIM_DEVICE" with
        | some s => if s = "" then "" else s
        | none => "") }

/-! ### Device matcher (should_patch_fd, lines 68-85) -/

/-- readlink writes at most sizeof link - 1 = 255 bytes into the 256-byte
buffer; longer link targets are silently truncated. -/
def READLINK_BUF_MAX : Nat := 255

/-- should_patch_fd: with no target (NULL or empty) match unconditionally.
Otherwise resolve /proc/self/fd/fd via readlink (modelled by the resolve
parameter giving the full link target, none on error); n <= 0 is a no-match;
otherwise strcmp the truncated buffer contents against target_dev. -/
def should_patch_fd (target_dev : Option String) (resolve : Int → Option String)
    (fd : Int) : Bool :=
  match target_dev with
  | none => true
  | some t =>
    if t = "" then true
    else
      match resolve fd with
      | none => false
      | some p =>
        if p = "" then false
        else decide (String.mk (p.data.take READLINK_BUF_MAX) = t)

/-! ### Request interceptor (ioctl, lines 87-120) -/

/-- The in-place patch of the four colorspace metadata fields
(lines 105-109): BT.2020 primaries, SMPTE2084 transfer, BT.2020 encoding,
limited quantization range. No other field is written. -/
def patch_hdr (fmt : v4l2_format) : v4l2_format :=
  { fmt with pix := { fmt.pix with
      colorspace := V4L2_COLORSPACE_BT2020,
      xfer_func := V4L2_XFER_FUNC_SMPTE2084,
      ycbcr_enc := V4L2_YCBCR_ENC_BT2020,
      quantization := V4L2_QUANTIZATION_LIM_RANGE } }

/-- The shim's own effect on the payload before forwarding: if not disabled,
the request is VIDIOC_S_FMT and the pointer is non-null, and the payload is
an OUTPUT-type format on a matching fd, patch it in place; otherwise leave
it untouched. -/
def shim_transform (cfg : ShimConfig) (resolve : Int → Option String)
    (fd : Int) (request : Nat) (arg : Option v4l2_format) : Option v4l2_format :=
  match arg with
  | none => none
  | some fmt =>
    if cfg.shim_disabled = false ∧ request = VIDIOC_S_FMT then
      if fmt.type = V4L2_BUF_TYPE_VIDEO_OUTPUT ∧
          should_patch_fd cfg.target_dev resolve fd = true then
        some (patch_hdr fmt)
      else some fmt
    else some fmt

/-- The intercepted ioctl after initialization: apply the in-place transform,
then unconditionally forward fd, request and the (possibly patched) payload
to real_ioctl, returning its result unchanged. The pair is (return value,
payload as forwarded). -/
def ioctl (real_ioctl : Int → Nat → Option v4l2_format → Int) (cfg : ShimConfig)
    (resolve : Int → Option String) (fd : Int) (request : Nat)
    (arg : Option v4l2_format) : Int × Option v4l2_format :=
  let arg2 := shim_transform cfg resolve fd request arg
  (real_ioctl fd request arg2, arg2)

/-! ### Initialization outcome (shim_init, lines 52-56) -/

/-- Outcome of shim_init: if dlsym(RTLD_NEXT, "ioctl") returns NULL the
process aborts (fatal_abort); otherwise the resolved real dispatch function
and the configuration snapshot are recorded. -/
inductive InitOutcome where
  | fatal_abort
  | ready (real_ioctl : Int → Nat → Option v4l2_format → Int) (cfg : ShimConfig)

/-- shim_init: resolve the real ioctl via dlsym (modelled by the
dlsym_next parameter); on failure abort, otherwise load configuration. -/
def shim_init (dlsym_next : Option (Int → Nat → Option v4l2_format → Int))
    (env : String → Option String) : InitOutcome :=
  match dlsym_next with
  | none => InitOutcome.fatal_abort
  | some f => InitOutcome.ready f (shim_init_config env)

/-- The full entry point: run initialization, then dispatch. none models the
aborted process: no forwarding call is ever attempted. -/
def ioctl_entry (dlsym_next : Option (Int → Nat → Option v4l2_format → Int))
    (env : String → Option String) (resolve : Int → Option String)
    (fd : Int) (request : Nat) (arg : Option v4l2_format) :
    Option (Int × Option v4l2_format) :=
  match shim_init dlsym_next env with
  | InitOutcome.fatal_abort => none
  | InitOutcome.ready f cfg => some (ioctl f cfg resolve fd request arg)

/-! ### Interleaving model of shim_init for the initialization race
(lines 48-50: the non-atomic check of shim_init_done followed by the store).
Each thread runs the same straight-line program; a schedule interleaves
single steps of the two threads under sequential consistency. -/

/-- The atomic steps of shim_init as the shared state sees them: the read of
shim_init_done (returning early when set), the store to shim_init_done, the
dlsym resolution, and the environment reads. -/
inductive InitStep where
  | checkDone
  | setDone
  | resolveSym
  | loadCfg
deriving DecidableEq, Repr

/-- The straight-line body of shim_init. -/
def shim_init_prog : List InitStep :=
  [InitStep.checkDone, InitStep.setDone, InitStep.resolveSym, InitStep.loadCfg]

/-- The shared state: the shim_init_done flag and how many times the dlsym
resolution has run. -/
structure InitSt where
  init_done : Bool
  resolutions : Nat
deriving DecidableEq, Repr

/-- One step of one thread: checkDone with the flag set abandons the rest of
the program (the early return); otherwise execute and advance. -/
def stepThread (s : InitSt) : List InitStep → InitSt × List InitStep
  | [] => (s, [])
  | InitStep.checkDone :: rest => if s.init_done then (s, []) else (s, rest)
  | InitStep.setDone :: rest => ({ s with init_done := true }, rest)
  | InitStep.resolveSym :: rest => ({ s with resolutions := s.resolutions + 1 }, rest)
  | InitStep.loadCfg :: rest => (s, rest)

/-- Two threads both about to run shim_init over the shared state. -/
structure TwoThreads where
  st : InitSt
  t0 : List InitStep
  t1 : List InitStep
deriving DecidableEq, Repr

/-- Execute one step of the thread a schedule picks (false = thread 0,
true = thread 1). -/
def schedStep (w : TwoThreads) (pick : Bool) : TwoThreads :=
  if pick then
    let r := stepThread w.st w.t1
    { w with st := r.fst, t1 := r.snd }
  else
    let r := stepThread w.st w.t0
    { w with st := r.fst, t0 := r.snd }

/-- Run a whole schedule. -/
def runSched (w : TwoThreads) : List Bool → TwoThreads
  | [] => w
  | b :: bs => runSched (schedStep w b) bs

/-- Both threads poised at their first call into shim_init, nothing resolved
yet. -/
def twoFreshCallers : TwoThreads :=
  { st := { init_done := false, resolutions := 0 },
    t0 := shim_init_prog, t1 := shim_init_prog }

/-- A schedule in which both threads pass the checkDone test before either
store is visible to the other. -/
def racySched : List Bool :=
  [false, true, false, true, false, true, false, true]

/-- A fully serialized schedule: thread 0 runs shim_init to completion, then
thread 1 runs it. -/
def serialSched : List Bool :=
  [false, false, false, false, true, true, true, true]

/-- Sequential execution of the shim_init body from a given state (a single
uninterrupted call). -/
def runInit (s : InitSt) : List InitStep → InitSt
  | [] => s
  | InitStep.checkDone :: rest => if s.init_done then s else runInit s rest
  | InitStep.setDone :: rest => runInit { s with init_done := true } rest
  | InitStep.resolveSym :: rest => runInit { s with resolutions := s.resolutions + 1 } rest
  | InitStep.loadCfg :: rest => runInit s rest

/-! ### Concrete sample values used by witnesses and counterexamples -/

/-- A sample NV12 1080p output-format payload. -/
def sampleFmt : v4l2_format :=
  { type := 2,
    pix := { width := 1920, height := 1080, pixelformat := 0x3231564e,
             field := 1, bytesperline := 1920, sizeimage := 3110400,
             colorspace := 0, priv := 0, flags := 0,
             ycbcr_enc := 0, quantization := 0, xfer_func := 0 } }

/-- A 256-byte device path: longer than the 255 bytes readlink can deliver
into the shim's buffer. -/
def longTarget : String := String.mk (List.replicate 256 'a')

/-- A sample environment with the disable switch set affirmatively. -/
def envDisabled : String → Option String :=
  fun k => if k = "V4L2_HDR_SHIM_DISABLE" then some "1" else none

/-- A sample environment with nothing set. -/
def envEmpty : String → Option String := fun _ => none

/-! ## Claims -/

/-- C1: for every intercepted call with the set-format request code, a
non-null payload of video-output type, the shim enabled and no target device
configured (target_dev NULL or empty), the four metadata fields of the
payload are overwritten to the fixed HDR combination 9 / 6 / 10 / 2. -/
theorem C1_output_wildcard_patched (cfg : ShimConfig)
    (resolve : Int → Option String) (fd : Int) (fmt : v4l2_format)
    (hdis : cfg.shim_disabled = false)
    (htgt : cfg.target_dev = none ∨ cfg.target_dev = some "")
    (hty : fmt.type = V4L2_BUF_TYPE_VIDEO_OUTPUT) :
    shim_transform cfg resolve fd VIDIOC_S_FMT (some fmt) = some (patch_hdr fmt) ∧
    (patch_hdr fmt).pix.colorspace = 9 ∧ (patch_hdr fmt).pix.xfer_func = 6 ∧
    (patch_hdr fmt).pix.ycbcr_enc = 10 ∧ (patch_hdr fmt).pix.quantization = 2 := by
  have hp : should_patch_fd cfg.target_dev resolve fd = true := by
    rcases htgt with h | h <;> simp [should_patch_fd, h]
  refine ⟨?_, rfl, rfl, rfl, rfl⟩
  simp [shim_transform, hdis, hty, hp]

/-- C1 witness: concrete instance with empty target and a sample payload. -/
theorem C1_witness :
    shim_transform { shim_disabled := false, target_dev := some "" } (fun _ => none) 3
        VIDIOC_S_FMT (some sampleFmt) = some (patch_hdr sampleFmt) ∧
      (patch_hdr sampleFmt).pix.colorspace = 9 ∧
      (patch_hdr sampleFmt).pix.xfer_func = 6 ∧
      (patch_hdr sampleFmt).pix.ycbcr_enc = 10 ∧
      (patch_hdr sampleFmt).pix.quantization = 2 :=
  C1_output_wildcard_patched _ _ 3 sampleFmt rfl (Or.inr rfl) rfl

/-- C2: for every request code other than VIDIOC_S_FMT the payload is
forwarded byte-for-byte unmodified and the return value is exactly what the
real dispatch returns for the same fd, request and payload. -/
theorem C2_other_requests_pass_through
    (real_ioctl : Int → Nat → Option v4l2_format → Int) (cfg : ShimConfig)
    (resolve : Int → Option String) (fd : Int) (request : Nat)
    (arg : Option v4l2_format) (hreq : request ≠ VIDIOC_S_FMT) :
    shim_transform cfg resolve fd request arg = arg ∧
    ioctl real_ioctl cfg resolve fd request arg = (real_ioctl fd request arg, arg) := by
  have h : shim_transform cfg resolve fd request arg = arg := by
    cases arg with
    | none => rfl
    | some fmt => simp [shim_transform, hreq]
  exact ⟨h, by simp [ioctl, h]⟩

/-- C2 witness: request code 0 (not VIDIOC_S_FMT) with a sample payload. -/
theorem C2_witness :
    shim_transform { shim_disabled := false, target_dev := some "" } (fun _ => none) 3 0
        (some sampleFmt) = some sampleFmt ∧
      ioctl (fun _ _ _ => 0) { shim_disabled := false, target_dev := some "" }
        (fun _ => none) 3 0 (some sampleFmt) = (0, some sampleFmt) :=
  C2_other_requests_pass_through (fun _ _ _ => 0) _ _ 3 0 (some sampleFmt) (by decide)

/-- C4: every set-format request whose payload type discriminant is not
video-output (2) leaves the payload byte-for-byte unmodified. -/
theorem C4_non_output_untouched (cfg : ShimConfig) (resolve : Int → Option String)
    (fd : Int) (fmt : v4l2_format)
    (hty : fmt.type ≠ V4L2_BUF_TYPE_VIDEO_OUTPUT) :
    shim_transform cfg resolve fd VIDIOC_S_FMT (some fmt) = some fmt := by
  simp [shim_transform, hty]

/-- C4 witness: a capture-type (1) payload is untouched. -/
theorem C4_witness :
    shim_transform { shim_disabled := false, target_dev := none } (fun _ => none) 3
        VIDIOC_S_FMT (some { sampleFmt with type := 1 }) =
      some { sampleFmt with type := 1 } :=
  C4_non_output_untouched _ _ 3 _ (by decide)

/-- C6: on every intercepted call the four metadata fields are either all
left untouched or all overwritten together to the one fixed combination;
no partial patch state exists. -/
theorem C6_all_or_nothing (cfg : ShimConfig) (resolve : Int → Option String)
    (fd : Int) (request : Nat) (fmt : v4l2_format) :
    shim_transform cfg resolve fd request (some fmt) = some fmt ∨
    shim_transform cfg resolve fd request (some fmt) =
      some { fmt with pix := { fmt.pix with
        colorspace := 9, xfer_func := 6, ycbcr_enc := 10, quantization := 2 } } := by
  have h : shim_transform cfg resolve fd request (some fmt) = some fmt ∨
      shim_transform cfg resolve fd request (some fmt) = some (patch_hdr fmt) := by
    simp only [shim_transform]
    split
    · split
      · exact Or.inr rfl
      · exact Or.inl rfl
    · exact Or.inl rfl
  rcases h with h | h
  · exact Or.inl h
  · right; rw [h]; rfl

/-- C8: when the dlsym lookup of the real dispatch fails, initialization
aborts the process and no forwarding call is ever attempted. -/
theorem C8_fatal_on_lookup_failure (env : String → Option String)
    (resolve : Int → Option String) (fd : Int) (request : Nat)
    (arg : Option v4l2_format) :
    shim_init none env = InitOutcome.fatal_abort ∧
    ioctl_entry none env resolve fd request arg = none :=
  ⟨rfl, rfl⟩

/-- C5: if the disable switch is affirmative at initialization (set, first
byte the digit one), every subsequent intercepted call leaves its payload
unmodified, for any request code, payload type or device matching. -/
theorem C5_disabled_pass_through (env : String → Option String) (s : String)
    (henv : env "V4L2_HDR_SHIM_DISABLE" = some s)
    (h1 : s.data.head? = some '1')
    (resolve : Int → Option String) (fd : Int) (request : Nat)
    (arg : Option v4l2_format) :
    shim_transform (shim_init_config env) resolve fd request arg = arg := by
  have hd : disable_affirmative (env "V4L2_HDR_SHIM_DISABLE") = true := by
    rw [henv]
    cases hs : s.data with
    | nil => rw [hs] at h1; simp at h1
    | cons c rest =>
      rw [hs] at h1
      simp only [List.head?] at h1
      have hc : c = '1' := by injection h1
      simp [disable_affirmative, hs, hc]
  have hc : shim_init_config env = { shim_disabled := true, target_dev := none } := by
    simp [shim_init_config, hd]
  cases arg with
  | none => rfl
  | some fmt => simp [shim_transform, hc]

/-- C5 witness: disable switch set to the string consisting of the digit
one; a set-format output payload passes through untouched. -/
theorem C5_witness :
    shim_transform (shim_init_config envDisabled) (fun _ => none) 3 VIDIOC_S_FMT
      (some sampleFmt) = some sampleFmt :=
  C5_disabled_pass_through envDisabled "1" rfl rfl (fun _ => none) 3 VIDIOC_S_FMT
    (some sampleFmt)

/-- C7: when a non-empty target is configured and path resolution of the
descriptor fails, the matcher reports no-match, the payload is untouched,
and the call is still forwarded with the real function's return value
surfaced unchanged — no error originates from the matching step. -/
theorem C7_resolve_failure_no_match
    (real_ioctl : Int → Nat → Option v4l2_format → Int) (cfg : ShimConfig)
    (resolve : Int → Option String) (fd : Int) (t : String) (request : Nat)
    (arg : Option v4l2_format)
    (htgt : cfg.target_dev = some t) (hne : t ≠ "") (hres : resolve fd = none) :
    should_patch_fd cfg.target_dev resolve fd = false ∧
    shim_transform cfg resolve fd request arg = arg ∧
    ioctl real_ioctl cfg resolve fd request arg = (real_ioctl fd request arg, arg) := by
  have hp : should_patch_fd cfg.target_dev resolve fd = false := by
    simp [should_patch_fd, htgt, hne, hres]
  have ht : shim_transform cfg resolve fd request arg = arg := by
    cases arg with
    | none => rfl
    | some fmt => simp [shim_transform, hp]
  exact ⟨hp, ht, by simp [ioctl, ht]⟩

/-- C7 witness: target /dev/video5 configured, resolution fails on fd 3. -/
theorem C7_witness :
    should_patch_fd (some "/dev/video5") (fun _ => none) 3 = false ∧
    shim_transform { shim_disabled := false, target_dev := some "/dev/video5" }
      (fun _ => none) 3 VIDIOC_S_FMT (some sampleFmt) = some sampleFmt ∧
    ioctl (fun _ _ _ => 0) { shim_disabled := false, target_dev := some "/dev/video5" }
      (fun _ => none) 3 VIDIOC_S_FMT (some sampleFmt) = (0, some sampleFmt) :=
  C7_resolve_failure_no_match (fun _ _ _ => 0)
    { shim_disabled := false, target_dev := some "/dev/video5" } (fun _ => none) 3
    "/dev/video5" VIDIOC_S_FMT (some sampleFmt) rfl (by decide) rfl

/-- C10: the matcher compares at most the first 255 bytes of the resolved
path, so a configured target longer than 255 bytes never matches any
descriptor. -/
theorem C10_long_target_never_matches (t : String) (resolve : Int → Option String)
    (fd : Int) (hlen : 255 < t.length) :
    should_patch_fd (some t) resolve fd = false := by
  have hne : ¬ (t = "") := by
    intro h
    subst h
    simp [String.length] at hlen
  simp only [should_patch_fd]
  rw [if_neg hne]
  cases hres : resolve fd with
  | none => rfl
  | some p =>
    show (if p = "" then false
      else decide (String.mk (p.data.take READLINK_BUF_MAX) = t)) = false
    by_cases hp : p = ""
    · simp [hp]
    · rw [if_neg hp]
      simp only [decide_eq_false_iff_not]
      intro heq
      have hlink : (String.mk (p.data.take READLINK_BUF_MAX)).length = t.length := by
        rw [heq]
      have htake : (p.data.take READLINK_BUF_MAX).length ≤ 255 := by
        rw [List.length_take]
        exact le_trans (min_le_left _ _) (by simp [READLINK_BUF_MAX])
      have : t.length ≤ 255 := by
        rw [← hlink]
        exact htake
      omega

set_option maxRecDepth 4096 in
/-- C10 witness: the 256-byte target never matches, here on a descriptor
resolving to /dev/video0. -/
theorem C10_witness :
    should_patch_fd (some longTarget) (fun _ => some "/dev/video0") 4 = false :=
  C10_long_target_never_matches longTarget (fun _ => some "/dev/video0") 4 (by decide)

set_option maxRecDepth 8192 in
/-- C3 counterexample: with a 256-byte target configured and the descriptor
resolving to exactly that path (byte-for-byte equal), the set-format
video-output payload is NOT patched — readlink truncated the comparison
buffer to 255 bytes — refuting the claimed "patched iff resolved path
equals the configured path". -/
theorem C3_counterexample :
    (fun _ : Int => some longTarget) 7 = some longTarget ∧
    shim_transform { shim_disabled := false, target_dev := some longTarget }
        (fun _ => some longTarget) 7 VIDIOC_S_FMT (some sampleFmt) = some sampleFmt :=
  ⟨rfl, by decide⟩

/-- C3 (amended): with a non-empty target configured, patching occurs iff
path resolution succeeds with a non-empty path whose first 255 bytes, as
delivered by readlink into the shim's buffer, equal the configured target. -/
theorem C3_truncated_match (t : String) (resolve : Int → Option String) (fd : Int)
    (hne : t ≠ "") :
    should_patch_fd (some t) resolve fd = true ↔
    ∃ p, resolve fd = some p ∧ p ≠ "" ∧
      String.mk (p.data.take READLINK_BUF_MAX) = t := by
  simp only [should_patch_fd]
  rw [if_neg hne]
  cases hres : resolve fd with
  | none => simp
  | some p =>
    show (if p = "" then false
        else decide (String.mk (p.data.take READLINK_BUF_MAX) = t)) = true ↔ _
    by_cases hp : p = ""
    · subst hp; simp
    · rw [if_neg hp]
      simp [hp]

/-- C3 witness: a short path equal to the target matches and patching
occurs. -/
theorem C3_witness :
    should_patch_fd (some "/dev/video5") (fun _ => some "/dev/video5") 3 = true :=
  (C3_truncated_match "/dev/video5" (fun _ => some "/dev/video5") 3 (by decide)).mpr
    ⟨"/dev/video5", rfl, by decide, by decide⟩

/-- C9 counterexample: a schedule in which two first callers interleave
their shim_init bodies performs the dlsym resolution twice — the non-atomic
check-then-store of shim_init_done does not give exactly-once
initialization under concurrent first calls. -/
theorem C9_counterexample :
    (runSched twoFreshCallers racySched).st.resolutions = 2 := by decide

/-- C9 (amended): initialization is idempotent across sequential calls —
any shim_init call starting after a completed one returns at the
shim_init_done check and changes nothing, and two fully serialized callers
resolve exactly once — but exactly-once is not guaranteed for interleaved
first callers. -/
theorem C9_seq_idempotent :
    (∀ s : InitSt, s.init_done = true → runInit s shim_init_prog = s) ∧
    (runSched twoFreshCallers serialSched).st.resolutions = 1 := by
  constructor
  · intro s h
    simp [runInit, shim_init_prog, h]
  · rfl

/-- C9 witness: a completed-state shim_init run changes nothing. -/
theorem C9_witness :
    runInit { init_done := true, resolutions := 1 } shim_init_prog =
      { init_done := true, resolutions := 1 } :=
  C9_seq_idempotent.1 { init_done := true, resolutions := 1 } rfl

end V4l2HdrShim
